import Mathlib

/-!
Shallow embedding of the pendulum simulation from src/src/main.rs.

The Rust program stores all simulation state in f32 fields; we model the
floating-point numbers by real numbers, and the f32 library functions
sin, cos, sqrt and atan2 by the corresponding real functions (atan2 is
modelled through the argument of a complex number, which agrees with the
usual atan2 convention, including atan2 0 0 = 0).

Only the rendering calls (clear_screen, draw_line, draw_text, draw_circle,
request_redraw) and the font are dropped: they read the state but never
write it, so every state-changing statement of the source is reproduced
here, in source order.
-/

namespace PendulumApp

/-- The 2D vector type from the `vector` module of the source
(`pub struct Vector { pub x: f32, pub y: f32 }`). -/
structure Vector where
  x : ℝ
  y : ℝ

/-- `Vector::new(x, y)` from the source. -/
def Vector.new (x y : ℝ) : Vector := ⟨x, y⟩

/-- `Vector::add(&mut self, other)`: in-place `self += other`, modelled
functionally as returning the updated vector. -/
def Vector.add (self other : Vector) : Vector :=
  ⟨self.x + other.x, self.y + other.y⟩

/-- `Vector::set(&mut self, x, y)`: overwrite both coordinates. -/
def Vector.set (_self : Vector) (x y : ℝ) : Vector :=
  ⟨x, y⟩

/-- `Vector::sub(&mut self, other)`: in-place `self -= other`. -/
def Vector.sub (self other : Vector) : Vector :=
  ⟨self.x - other.x, self.y - other.y⟩

/-- The `Pendulum` struct of the source, with the same fields. -/
structure Pendulum where
  origin : Vector
  position : Vector
  angle : ℝ
  angular_velocity : ℝ
  angular_acceleration : ℝ
  r : ℝ
  m : ℝ
  g : ℝ

/-- `Pendulum::new(x, y, r)` from the source. -/
noncomputable def Pendulum.new (x y r : ℝ) : Pendulum :=
  { origin := Vector.new x y
    position := Vector.new 0.0 0.0
    angle := 1.0
    angular_velocity := 0.0
    angular_acceleration := 0.0
    r := r
    m := 1.0
    g := 0.5 }

/-- The damping coefficient computed at the top of `Pendulum::update`
(the source spells it `dumping`): `0.995 - 0.0003 * m / 3.0`. -/
noncomputable def dumping (m : ℝ) : ℝ := 0.995 - 0.0003 * m / 3.0

/-- `Pendulum::update(&mut self)`, statement by statement in source order:
damping, angular_acceleration, `angular_velocity +=`, `angular_velocity *=`,
`angle +=`, then `position.set(r*sin(angle), r*cos(angle))` followed by
`position.add(&origin)`. -/
noncomputable def Pendulum.update (p : Pendulum) : Pendulum :=
  let d := dumping p.m
  let angular_acceleration := -p.g * Real.sin p.angle / p.r
  let angular_velocity := p.angular_velocity + angular_acceleration
  let angular_velocity := angular_velocity * d
  let angle := p.angle + angular_velocity
  let position := (p.position.set (p.r * Real.sin angle) (p.r * Real.cos angle)).add p.origin
  { p with
    angular_acceleration := angular_acceleration
    angular_velocity := angular_velocity
    angle := angle
    position := position }

/-- `Pendulum::distance(&mut self, other)`:
`((position.x - other.x).powi(2) + (position.y - other.y).powi(2)).sqrt()`. -/
noncomputable def Pendulum.distance (p : Pendulum) (other : Vector) : ℝ :=
  Real.sqrt ((p.position.x - other.x) ^ 2 + (p.position.y - other.y) ^ 2)

/-- The f32 function `atan2(y, x)`, modelled as the argument of the complex
number x + y i (range (-pi, pi], and atan2 0 0 = 0, as in Rust). -/
noncomputable def atan2 (y x : ℝ) : ℝ := Complex.arg ⟨x, y⟩

/-- The `MouseButton` enum of speedy2d, restricted to the cases the source
matches on. -/
inductive MouseButton where
  | Left : MouseButton
  | Middle : MouseButton
  | Right : MouseButton
deriving DecidableEq

/-- The `MyWindowHandler` struct of the source, without the font (the font
is only read by the dropped rendering calls). -/
structure MyWindowHandler where
  p : Pendulum
  grabbed : Bool
  mouse_x : ℝ
  mouse_y : ℝ

/-- The state changes of `MyWindowHandler::on_draw`: `self.p.update()`,
then, if `self.grabbed`, the grab recomputation that sets position to the
mouse, recomputes r from the new position and the origin, zeroes the
angular acceleration and velocity, and derives the angle with atan2.
The drawing calls are dropped. -/
noncomputable def MyWindowHandler.on_draw (w : MyWindowHandler) : MyWindowHandler :=
  let p := w.p.update
  if w.grabbed then
    let diff := Vector.new (p.origin.x - w.mouse_x) (p.origin.y - w.mouse_y)
    let position := p.position.set w.mouse_x w.mouse_y
    let r := Real.sqrt ((position.x - p.origin.x) ^ 2 + (position.y - p.origin.y) ^ 2)
    { w with p :=
      { p with
        position := position
        r := r
        angular_acceleration := 0.0
        angular_velocity := 0.0
        angle := atan2 (-diff.y) diff.x - Real.pi / 2 } }
  else
    { w with p := p }

/-- The grab recomputation of `on_draw` alone, applied to the handler
without first running `Pendulum::update` — the comparison point for the
claim that the integration is observably bypassed while grabbed. -/
noncomputable def MyWindowHandler.grab_only (w : MyWindowHandler) : MyWindowHandler :=
  let p := w.p
  let diff := Vector.new (p.origin.x - w.mouse_x) (p.origin.y - w.mouse_y)
  let position := p.position.set w.mouse_x w.mouse_y
  let r := Real.sqrt ((position.x - p.origin.x) ^ 2 + (position.y - p.origin.y) ^ 2)
  { w with p :=
    { p with
      position := position
      r := r
      angular_acceleration := 0.0
      angular_velocity := 0.0
      angle := atan2 (-diff.y) diff.x - Real.pi / 2 } }

/-- `MyWindowHandler::on_key_down`, matching on the scancode: 57416 and
57424 adjust gravity, 57419 and 57421 adjust mass, 19 (the R key) resets
r and angle, every other scancode is ignored. -/
noncomputable def MyWindowHandler.on_key_down (w : MyWindowHandler) (scancode : Nat) : MyWindowHandler :=
  if scancode = 57416 then { w with p := { w.p with g := w.p.g + 0.1 } }
  else if scancode = 57424 then { w with p := { w.p with g := w.p.g - 0.1 } }
  else if scancode = 57419 then { w with p := { w.p with m := w.p.m - 1.0 } }
  else if scancode = 57421 then { w with p := { w.p with m := w.p.m + 1.0 } }
  else if scancode = 19 then { w with p := { w.p with r := 200.0, angle := 1.0 } }
  else w

/-- `MyWindowHandler::on_mouse_move`: caches the pointer position. -/
def MyWindowHandler.on_mouse_move (w : MyWindowHandler) (x y : ℝ) : MyWindowHandler :=
  { w with mouse_x := x, mouse_y := y }

/-- `MyWindowHandler::on_mouse_button_up`: on the left button, if the
distance from the bob to the cached pointer is below 28.0, clear the
grabbed flag and zero the angular velocity. -/
noncomputable def MyWindowHandler.on_mouse_button_up
    (w : MyWindowHandler) (button : MouseButton) : MyWindowHandler :=
  if button = MouseButton.Left then
    if w.p.distance (Vector.new w.mouse_x w.mouse_y) < 28.0 then
      { w with grabbed := false, p := { w.p with angular_velocity := 0.0 } }
    else w
  else w

/-- `MyWindowHandler::on_mouse_button_down`: on the left button, if the
distance from the bob to the cached pointer is below 28.0, set the
grabbed flag. -/
noncomputable def MyWindowHandler.on_mouse_button_down
    (w : MyWindowHandler) (button : MouseButton) : MyWindowHandler :=
  if button = MouseButton.Left then
    if w.p.distance (Vector.new w.mouse_x w.mouse_y) < 28.0 then
      { w with grabbed := true }
    else w
  else w

/-- The initial handler state built in `main`:
`Pendulum::new(400.0, 0.0, 200.0)`, not grabbed, mouse at (0, 0). -/
noncomputable def initialHandler : MyWindowHandler :=
  { p := Pendulum.new 400.0 0.0 200.0
    grabbed := false
    mouse_x := 0.0
    mouse_y := 0.0 }

/-- A handler state whose pendulum is still swinging (angular_velocity = 1)
while the mouse sits exactly on the bob: the pendulum of `main` with its
velocity overwritten. -/
noncomputable def spinningHandler : MyWindowHandler :=
  { p := { Pendulum.new 400.0 0.0 200.0 with angular_velocity := 1.0 }
    grabbed := false
    mouse_x := 0.0
    mouse_y := 0.0 }

/-- A grabbed handler state, with the mouse straight below the pivot. -/
noncomputable def grabbedHandler : MyWindowHandler :=
  { p := Pendulum.new 400.0 0.0 200.0
    grabbed := true
    mouse_x := 400.0
    mouse_y := 200.0 }

lemma initial_distance_zero :
    (Pendulum.new 400.0 0.0 200.0).distance (Vector.new 0.0 0.0) = 0 := by
  simp [Pendulum.distance, Pendulum.new, Vector.new, Real.sqrt_zero]

/-- Claim C9: the R-key handler (scancode 19) sets r to 200.0 and angle to
1.0 and leaves angular_velocity, angular_acceleration, m, g, origin,
position and the grabbed flag unchanged. -/
theorem reset_sets_r_and_angle_only (w : MyWindowHandler) :
    w.on_key_down 19 = { w with p := { w.p with r := 200.0, angle := 1.0 } } := by
  simp [MyWindowHandler.on_key_down]

/-- Claim C8: the damping coefficient used by update is
0.995 - 0.0003 * m / 3.0; it is non-increasing in the mass and below 1 for
every nonnegative mass. -/
theorem dumping_monotone_and_lt_one :
    (∀ p : Pendulum, (p.update).angular_velocity
        = (p.angular_velocity + (p.update).angular_acceleration) * dumping p.m) ∧
    (∀ m1 m2 : ℝ, 0 ≤ m1 → m1 ≤ m2 → dumping m2 ≤ dumping m1) ∧
    (∀ m : ℝ, 0 ≤ m → dumping m < 1) := by
  refine ⟨fun p => rfl, fun m1 m2 h0 h12 => ?_, fun m h => ?_⟩ <;>
    unfold dumping <;> nlinarith

/-- Witness for C8 at the concrete masses 0 and 3. -/
theorem dumping_monotone_and_lt_one_witness :
    dumping 3 ≤ dumping 0 ∧ dumping 0 < 1 :=
  ⟨dumping_monotone_and_lt_one.2.1 0 3 (by norm_num) (by norm_num),
   dumping_monotone_and_lt_one.2.2 0 (by norm_num)⟩

/-- Claim C5: when the left button goes down and the hit test passes
(distance from the bob to the pointer below 28.0), the handler sets
grabbed to true and changes nothing else. -/
theorem begin_grab_sets_grabbed_only (w : MyWindowHandler)
    (h : w.p.distance (Vector.new w.mouse_x w.mouse_y) < 28.0) :
    w.on_mouse_button_down MouseButton.Left = { w with grabbed := true } := by
  simp [MyWindowHandler.on_mouse_button_down, h]

/-- Witness for C5 at the initial handler, whose bob and mouse coincide. -/
theorem begin_grab_sets_grabbed_only_witness :
    initialHandler.on_mouse_button_down MouseButton.Left
      = { initialHandler with grabbed := true } :=
  begin_grab_sets_grabbed_only initialHandler
    (by rw [show initialHandler.p = Pendulum.new 400.0 0.0 200.0 from rfl]
        rw [show initialHandler.mouse_x = 0.0 from rfl,
            show initialHandler.mouse_y = 0.0 from rfl, initial_distance_zero]
        norm_num)

/-- Claim C6: on a left-button mouse-up, the handler clears the grabbed
flag and zeroes the angular velocity exactly when the hit test passes
(leaving angle, position, acceleration, r, m, g, origin unchanged); when
the hit test fails, or the button is not the left one, nothing changes. -/
theorem end_grab_iff_hit (w : MyWindowHandler) :
    (w.p.distance (Vector.new w.mouse_x w.mouse_y) < 28.0 →
      w.on_mouse_button_up MouseButton.Left
        = { w with grabbed := false, p := { w.p with angular_velocity := 0.0 } }) ∧
    (28.0 ≤ w.p.distance (Vector.new w.mouse_x w.mouse_y) →
      w.on_mouse_button_up MouseButton.Left = w) ∧
    (∀ b : MouseButton, b ≠ MouseButton.Left → w.on_mouse_button_up b = w) := by
  refine ⟨fun h => ?_, fun h => ?_, fun b hb => ?_⟩
  · simp [MyWindowHandler.on_mouse_button_up, h]
  · simp [MyWindowHandler.on_mouse_button_up, not_lt.2 h]
  · simp [MyWindowHandler.on_mouse_button_up, hb]

/-- Witness for C6: the hit branch at the initial handler, the miss branch
at the handler with the mouse moved far away, and the wrong-button branch. -/
theorem end_grab_iff_hit_witness :
    (initialHandler.on_mouse_button_up MouseButton.Left
      = { initialHandler with grabbed := false, p := { initialHandler.p with angular_velocity := 0.0 } }) ∧
    ((initialHandler.on_mouse_move 1000.0 0.0).on_mouse_button_up MouseButton.Left
      = initialHandler.on_mouse_move 1000.0 0.0) ∧
    (initialHandler.on_mouse_button_up MouseButton.Right = initialHandler) := by
  refine ⟨(end_grab_iff_hit initialHandler).1 ?_,
          (end_grab_iff_hit (initialHandler.on_mouse_move 1000.0 0.0)).2.1 ?_,
          (end_grab_iff_hit initialHandler).2.2 MouseButton.Right (by decide)⟩
  · rw [show initialHandler.p = Pendulum.new 400.0 0.0 200.0 from rfl]
    rw [show initialHandler.mouse_x = 0.0 from rfl,
        show initialHandler.mouse_y = 0.0 from rfl, initial_distance_zero]
    norm_num
  · rw [show (initialHandler.on_mouse_move 1000.0 0.0).p
          = Pendulum.new 400.0 0.0 200.0 from rfl]
    rw [show (initialHandler.on_mouse_move 1000.0 0.0).mouse_x = 1000.0 from rfl,
        show (initialHandler.on_mouse_move 1000.0 0.0).mouse_y = 0.0 from rfl]
    rw [show (Pendulum.new 400.0 0.0 200.0).distance (Vector.new 1000.0 0.0)
          = Real.sqrt ((0.0 - 1000.0) ^ 2 + (0.0 - 0.0) ^ 2) from rfl]
    rw [show ((0.0 : ℝ) - 1000.0) ^ 2 + (0.0 - 0.0) ^ 2 = 1000.0 ^ 2 by norm_num]
    rw [Real.sqrt_sq (by norm_num)]
    norm_num

/-- Claim C3 (counterexample): pressing the left button on the bob while
the pendulum still has angular velocity 1 sets grabbed to true but leaves
the angular velocity nonzero, so the state immediately after the grab
begins does not have angular_velocity = 0. -/
theorem grab_zeroing_counterexample :
    (spinningHandler.on_mouse_button_down MouseButton.Left).grabbed = true ∧
    (spinningHandler.on_mouse_button_down MouseButton.Left).p.angular_velocity ≠ 0 := by
  have hd : spinningHandler.p.distance
      (Vector.new spinningHandler.mouse_x spinningHandler.mouse_y) < 28.0 := by
    rw [show spinningHandler.p.distance
          (Vector.new spinningHandler.mouse_x spinningHandler.mouse_y)
        = Real.sqrt ((0.0 - 0.0) ^ 2 + (0.0 - 0.0) ^ 2) from rfl]
    rw [show ((0.0 : ℝ) - 0.0) ^ 2 + (0.0 - 0.0) ^ 2 = 0 by norm_num, Real.sqrt_zero]
    norm_num
  constructor
  · simp [MyWindowHandler.on_mouse_button_down, hd]
  · simp [MyWindowHandler.on_mouse_button_down, hd]
    rw [show spinningHandler.p.angular_velocity = 1.0 from rfl]
    norm_num

/-- Claim C3 (amended): the left-button mouse-down handler leaves the
angular velocity and acceleration unchanged (it only sets the grabbed
flag), while after the grabbed branch of on_draw both are zero. -/
theorem grab_zeroing_amended :
    (∀ w : MyWindowHandler,
        (w.on_mouse_button_down MouseButton.Left).p.angular_velocity
          = w.p.angular_velocity ∧
        (w.on_mouse_button_down MouseButton.Left).p.angular_acceleration
          = w.p.angular_acceleration) ∧
    (∀ w : MyWindowHandler, w.grabbed = true →
        (w.on_draw).p.angular_velocity = 0 ∧
        (w.on_draw).p.angular_acceleration = 0) := by
  constructor
  · intro w
    unfold MyWindowHandler.on_mouse_button_down
    split_ifs <;> simp
  · intro w h
    simp [MyWindowHandler.on_draw, h]
    norm_num

/-- Witness for the amended C3 at a concrete grabbed handler. -/
theorem grab_zeroing_amended_witness :
    (grabbedHandler.on_draw).p.angular_velocity = 0 ∧
    (grabbedHandler.on_draw).p.angular_acceleration = 0 :=
  grab_zeroing_amended.2 grabbedHandler rfl

/-- Claim C10: while grabbed, running the frame as the code does (update
followed by the grab recomputation) produces exactly the same handler
state as the grab recomputation alone: every field update writes is
overwritten and origin, m, g are untouched. -/
theorem grabbed_frame_bypasses_update (w : MyWindowHandler) (h : w.grabbed = true) :
    w.on_draw = w.grab_only := by
  simp [MyWindowHandler.on_draw, MyWindowHandler.grab_only, h,
    Pendulum.update, Vector.set, Vector.add]

/-- Witness for C10 at a concrete grabbed handler. -/
theorem grabbed_frame_bypasses_update_witness :
    grabbedHandler.on_draw = grabbedHandler.grab_only :=
  grabbed_frame_bypasses_update grabbedHandler rfl

/-- The pendulum built in `main`: `Pendulum::new(400.0, 0.0, 200.0)`. -/
noncomputable def p0 : Pendulum := Pendulum.new 400.0 0.0 200.0

/-- Claim C1: with the grabbed flag false, one frame runs exactly
`Pendulum::update`, whose writes are, in order: the acceleration from
-g sin(angle)/r, the velocity incremented and then scaled by the damping
0.995 - 0.0003 m / 3, the angle incremented by the new velocity, and the
position recomputed as origin + r (sin angle, cos angle); origin, r, m
and g are unchanged. -/
theorem free_step_exact (w : MyWindowHandler) (h : w.grabbed = false) :
    w.on_draw = { w with p := w.p.update } ∧
    (w.p.update).angular_acceleration = -w.p.g * Real.sin w.p.angle / w.p.r ∧
    (w.p.update).angular_velocity
      = (w.p.angular_velocity + -w.p.g * Real.sin w.p.angle / w.p.r)
          * (0.995 - 0.0003 * w.p.m / 3.0) ∧
    (w.p.update).angle = w.p.angle + (w.p.update).angular_velocity ∧
    (w.p.update).position.x = w.p.origin.x + w.p.r * Real.sin (w.p.update).angle ∧
    (w.p.update).position.y = w.p.origin.y + w.p.r * Real.cos (w.p.update).angle ∧
    (w.p.update).origin = w.p.origin ∧
    (w.p.update).r = w.p.r ∧
    (w.p.update).m = w.p.m ∧
    (w.p.update).g = w.p.g := by
  refine ⟨?_, rfl, rfl, rfl, ?_, ?_, rfl, rfl, rfl, rfl⟩
  · simp [MyWindowHandler.on_draw, h]
  · simp [Pendulum.update, Vector.set, Vector.add, dumping]
    ring
  · simp [Pendulum.update, Vector.set, Vector.add, dumping]
    ring

/-- Witness for C1 at the initial handler of `main`. -/
theorem free_step_exact_witness :
    initialHandler.on_draw = { initialHandler with p := initialHandler.p.update } ∧
    (initialHandler.p.update).angular_acceleration
      = -initialHandler.p.g * Real.sin initialHandler.p.angle / initialHandler.p.r ∧
    (initialHandler.p.update).angular_velocity
      = (initialHandler.p.angular_velocity
          + -initialHandler.p.g * Real.sin initialHandler.p.angle / initialHandler.p.r)
          * (0.995 - 0.0003 * initialHandler.p.m / 3.0) ∧
    (initialHandler.p.update).angle
      = initialHandler.p.angle + (initialHandler.p.update).angular_velocity ∧
    (initialHandler.p.update).position.x
      = initialHandler.p.origin.x
          + initialHandler.p.r * Real.sin (initialHandler.p.update).angle ∧
    (initialHandler.p.update).position.y
      = initialHandler.p.origin.y
          + initialHandler.p.r * Real.cos (initialHandler.p.update).angle ∧
    (initialHandler.p.update).origin = initialHandler.p.origin ∧
    (initialHandler.p.update).r = initialHandler.p.r ∧
    (initialHandler.p.update).m = initialHandler.p.m ∧
    (initialHandler.p.update).g = initialHandler.p.g :=
  free_step_exact initialHandler rfl

lemma sqrt_mul_sin_cos_atan2 (x y : ℝ) :
    Real.sqrt (x ^ 2 + y ^ 2) * Real.sin (atan2 y x - Real.pi / 2) = -x ∧
    Real.sqrt (x ^ 2 + y ^ 2) * Real.cos (atan2 y x - Real.pi / 2) = y := by
  have habs : Complex.abs ⟨x, y⟩ = Real.sqrt (x ^ 2 + y ^ 2) := by
    rw [Complex.abs_apply, Complex.normSq_mk,
      show x * x + y * y = x ^ 2 + y ^ 2 by ring]
  have hsin : Real.sin (atan2 y x - Real.pi / 2) = -Real.cos (atan2 y x) := by
    rw [Real.sin_sub, Real.sin_pi_div_two, Real.cos_pi_div_two]
    ring
  have hcos : Real.cos (atan2 y x - Real.pi / 2) = Real.sin (atan2 y x) := by
    rw [Real.cos_sub, Real.sin_pi_div_two, Real.cos_pi_div_two]
    ring
  by_cases h : (⟨x, y⟩ : ℂ) = 0
  · have hx : x = 0 := by simpa using congrArg Complex.re h
    have hy : y = 0 := by simpa using congrArg Complex.im h
    subst hx
    subst hy
    rw [hsin, hcos]
    norm_num [Real.sqrt_zero]
  · have hab0 : Complex.abs ⟨x, y⟩ ≠ 0 := (Complex.abs.pos h).ne'
    have hre : (⟨x, y⟩ : ℂ).re = x := rfl
    have him : (⟨x, y⟩ : ℂ).im = y := rfl
    constructor
    · rw [hsin, show atan2 y x = Complex.arg ⟨x, y⟩ from rfl,
        Complex.cos_arg h, hre, ← habs]
      field_simp
      ring
    · rw [hcos, show atan2 y x = Complex.arg ⟨x, y⟩ from rfl,
        Complex.sin_arg, him, ← habs]
      field_simp

lemma on_draw_grabbed_fields (w : MyWindowHandler) (h : w.grabbed = true) :
    (w.on_draw).p.position.x = w.mouse_x ∧
    (w.on_draw).p.position.y = w.mouse_y ∧
    (w.on_draw).p.origin = w.p.origin ∧
    (w.on_draw).p.r
      = Real.sqrt ((w.mouse_x - w.p.origin.x) ^ 2 + (w.mouse_y - w.p.origin.y) ^ 2) ∧
    (w.on_draw).p.angle
      = atan2 (w.mouse_y - w.p.origin.y) (w.p.origin.x - w.mouse_x) - Real.pi / 2 := by
  refine ⟨?_, ?_, ?_, ?_, ?_⟩ <;>
    simp [MyWindowHandler.on_draw, h, Vector.set, Vector.new, Vector.add,
      Pendulum.update, neg_sub]

/-- Claim C2: immediately after update, and immediately after the grabbed
branch of on_draw, position = origin + r (sin angle, cos angle); in the
grabbed branch this makes the position equal to the pointer (the equality
is exact in the real-number model, so it holds a fortiori within
floating-point tolerance). -/
theorem derived_position_invariant :
    (∀ p : Pendulum,
        (p.update).position.x
          = (p.update).origin.x + (p.update).r * Real.sin (p.update).angle ∧
        (p.update).position.y
          = (p.update).origin.y + (p.update).r * Real.cos (p.update).angle) ∧
    (∀ w : MyWindowHandler, w.grabbed = true →
        ((w.on_draw).p.position.x
            = (w.on_draw).p.origin.x + (w.on_draw).p.r * Real.sin (w.on_draw).p.angle ∧
          (w.on_draw).p.position.y
            = (w.on_draw).p.origin.y + (w.on_draw).p.r * Real.cos (w.on_draw).p.angle) ∧
        (w.on_draw).p.position.x = w.mouse_x ∧
        (w.on_draw).p.position.y = w.mouse_y) := by
  constructor
  · intro p
    constructor <;> simp [Pendulum.update, Vector.set, Vector.add, dumping] <;> ring
  · intro w h
    obtain ⟨hpx, hpy, ho, hr, ha⟩ := on_draw_grabbed_fields w h
    refine ⟨⟨?_, ?_⟩, hpx, hpy⟩
    · rw [hpx, ho, hr, ha]
      have key := (sqrt_mul_sin_cos_atan2
        (w.p.origin.x - w.mouse_x) (w.mouse_y - w.p.origin.y)).1
      rw [show (w.mouse_x - w.p.origin.x) ^ 2 = (w.p.origin.x - w.mouse_x) ^ 2 by ring,
        key]
      ring
    · rw [hpy, ho, hr, ha]
      have key := (sqrt_mul_sin_cos_atan2
        (w.p.origin.x - w.mouse_x) (w.mouse_y - w.p.origin.y)).2
      rw [show (w.mouse_x - w.p.origin.x) ^ 2 = (w.p.origin.x - w.mouse_x) ^ 2 by ring,
        key]
      ring

/-- Witness for C2 at a concrete grabbed handler. -/
theorem derived_position_invariant_witness :
    ((grabbedHandler.on_draw).p.position.x
        = (grabbedHandler.on_draw).p.origin.x
            + (grabbedHandler.on_draw).p.r * Real.sin (grabbedHandler.on_draw).p.angle ∧
      (grabbedHandler.on_draw).p.position.y
        = (grabbedHandler.on_draw).p.origin.y
            + (grabbedHandler.on_draw).p.r * Real.cos (grabbedHandler.on_draw).p.angle) ∧
    (grabbedHandler.on_draw).p.position.x = grabbedHandler.mouse_x ∧
    (grabbedHandler.on_draw).p.position.y = grabbedHandler.mouse_y :=
  derived_position_invariant.2 grabbedHandler rfl

/-- Claim C4 (counterexample): in the scenario of the spec the first call
to update yields angular_acceleration = -0.5 sin(1)/200, but the new
angular velocity is that acceleration scaled by 0.9949 (the damping at
m = 1), not by 0.9999 as the claim states: the two differ because
sin 1 is not zero. -/
theorem first_step_scenario_counterexample :
    (p0.update).angular_acceleration = -0.5 * Real.sin 1 / 200 ∧
    (p0.update).angular_velocity = -0.5 * Real.sin 1 / 200 * 0.9949 ∧
    (p0.update).angular_velocity ≠ -0.5 * Real.sin 1 / 200 * 0.9999 := by
  have hacc : (p0.update).angular_acceleration = -0.5 * Real.sin 1 / 200 := by
    simp [p0, Pendulum.update, Pendulum.new]
    norm_num
  have hv : (p0.update).angular_velocity = -0.5 * Real.sin 1 / 200 * 0.9949 := by
    simp [p0, Pendulum.update, Pendulum.new, dumping]
    norm_num
  refine ⟨hacc, hv, ?_⟩
  rw [hv]
  have hs : 0 < Real.sin 1 :=
    Real.sin_pos_of_pos_of_lt_pi one_pos (by linarith [Real.two_le_pi])
  intro hEq
  nlinarith [hs, hEq]

/-- Claim C4 (amended): in the scenario of the spec, one update gives
angular_acceleration = -0.5 sin(1)/200, angular_velocity = that value
times the damping 0.9949, angle = 1 plus the new velocity, and
position = (400 + 200 sin(new angle), 200 cos(new angle)). -/
theorem first_step_scenario_amended :
    (p0.update).angular_acceleration = -0.5 * Real.sin 1 / 200 ∧
    (p0.update).angular_velocity = -0.5 * Real.sin 1 / 200 * 0.9949 ∧
    (p0.update).angle = 1 + -0.5 * Real.sin 1 / 200 * 0.9949 ∧
    (p0.update).position.x = 400 + 200 * Real.sin (p0.update).angle ∧
    (p0.update).position.y = 200 * Real.cos (p0.update).angle := by
  refine ⟨first_step_scenario_counterexample.1, first_step_scenario_counterexample.2.1,
    ?_, ?_, ?_⟩
  · simp [p0, Pendulum.update, Pendulum.new, dumping]
    norm_num
  · simp [p0, Pendulum.update, Pendulum.new, dumping, Vector.set, Vector.add, Vector.new]
    ring
  · simp [p0, Pendulum.update, Pendulum.new, dumping, Vector.set, Vector.add, Vector.new]
    norm_num

/-- Claim C7: the hit test of the source (distance from the bob position
to the pointer, compared with 28.0) passes exactly when the squared
Euclidean distance is below 28 squared, i.e. when the distance is
strictly below 28; at the bob of p0 (position (0,0)) the pointer
(27.99, 0) at distance 27.99 passes and the pointer (28.01, 0) at
distance 28.01 does not (its distance is at least 28). -/
theorem hit_test_strict_boundary :
    (∀ (p : Pendulum) (v : Vector),
        (p.distance v < 28.0
          ↔ (p.position.x - v.x) ^ 2 + (p.position.y - v.y) ^ 2 < 28.0 ^ 2)) ∧
    p0.distance (Vector.new 27.99 0) = 27.99 ∧
    p0.distance (Vector.new 28.01 0) = 28.01 ∧
    p0.distance (Vector.new 27.99 0) < 28.0 ∧
    28.0 ≤ p0.distance (Vector.new 28.01 0) := by
  have h1 : p0.distance (Vector.new 27.99 0) = 27.99 := by
    rw [show p0.distance (Vector.new 27.99 0)
        = Real.sqrt ((0.0 - 27.99) ^ 2 + (0.0 - 0) ^ 2) from rfl]
    rw [show ((0.0 : ℝ) - 27.99) ^ 2 + (0.0 - 0) ^ 2 = 27.99 ^ 2 by norm_num]
    rw [Real.sqrt_sq (by norm_num)]
  have h2 : p0.distance (Vector.new 28.01 0) = 28.01 := by
    rw [show p0.distance (Vector.new 28.01 0)
        = Real.sqrt ((0.0 - 28.01) ^ 2 + (0.0 - 0) ^ 2) from rfl]
    rw [show ((0.0 : ℝ) - 28.01) ^ 2 + (0.0 - 0) ^ 2 = 28.01 ^ 2 by norm_num]
    rw [Real.sqrt_sq (by norm_num)]
  refine ⟨fun p v => ?_, h1, h2, ?_, ?_⟩
  · exact Real.sqrt_lt' (by norm_num)
  · rw [h1]
    norm_num
  · rw [h2]
    norm_num

end PendulumApp
